import Mathlib

/-!
Shallow embedding of the felbot account-linking and role-verification core:
the database models (src/database/models), the OAuth endpoints
(src/api/oauth.rs), the error taxonomy (src/api/error.rs), the scoped
transaction helper (src/utils.rs) and the role-verification cycle
(src/cron.rs).  Machine integers (i64, u64) are modelled as Int and Nat,
UUIDs as Nat counters, timestamps as Int.
-/

namespace Felbot

/-! ### Data model (src/database/models/user_links.rs, oauth_state.rs,
allowed_guilds.rs) -/

/-- A row of `user_links` (fields used by the core; `created_at`,
`updated_at` and `last_subscription_check` are never read by it). -/
structure UserLink where
  id : Nat
  discord_id : Int
  telegram_id : Int
  added_to_group_at : Option Int
  deriving Repr, DecidableEq

/-- A row of `oauth_states` (fields used by the core). -/
structure OAuthState where
  id : Nat
  state_token : String
  telegram_id : Int
  expires_at : Int
  deriving Repr, DecidableEq

/-- A row of `allowed_guilds` (fields used by the verifier). -/
structure AllowedGuild where
  id : Nat
  guild_id : Int
  deriving Repr, DecidableEq

/-- The persistent store: the two tables the core owns, plus a fresh-id
counter standing for UUID generation. -/
structure Db where
  user_links : List UserLink
  oauth_states : List OAuthState
  next_id : Nat
  deriving Repr, DecidableEq

/-- Database-layer failure.  `uniqueViolation` is a unique-constraint
violation surfaced by an INSERT; `connection` is any other sqlx error. -/
inductive DbError where
  | uniqueViolation
  | connection
  deriving Repr, DecidableEq

/-- Embeds `SELECT * FROM user_links WHERE discord_id = $1` (fetch_optional). -/
def UserLink.find_by_discord_id (db : Db) (discord_id : Int) : Option UserLink :=
  db.user_links.find? (fun l => l.discord_id == discord_id)

/-- Embeds `SELECT * FROM user_links WHERE telegram_id = $1` (fetch_optional). -/
def UserLink.find_by_telegram_id (db : Db) (telegram_id : Int) : Option UserLink :=
  db.user_links.find? (fun l => l.telegram_id == telegram_id)

/-- Embeds `INSERT INTO user_links (discord_id, telegram_id) VALUES ($1, $2)
RETURNING *`.  Modelled from the spec: the unique constraints on
`discord_id` and `telegram_id` come from the schema migrations, which are
not in the source tree; the spec states both columns are unique, so the
insert fails with a unique violation when either id is already present. -/
def UserLink.create_link (db : Db) (discord_id telegram_id : Int) :
    Except DbError (UserLink × Db) :=
  if db.user_links.any (fun l => l.discord_id == discord_id || l.telegram_id == telegram_id) then
    Except.error DbError.uniqueViolation
  else
    let link : UserLink :=
      { id := db.next_id, discord_id := discord_id, telegram_id := telegram_id,
        added_to_group_at := none }
    Except.ok (link, { db with user_links := db.user_links ++ [link], next_id := db.next_id + 1 })

/-- Embeds `UPDATE user_links SET added_to_group_at = NOW() WHERE id = $1`. -/
def UserLink.mark_added_to_group (db : Db) (id : Nat) (now : Int) : Db :=
  { db with user_links :=
      db.user_links.map fun l =>
        if l.id == id then { l with added_to_group_at := some now } else l }

/-- Embeds `SELECT * FROM user_links` (fetch_all); also stands for
`get_all_guild_users`, which the verifier calls and which selects the
same unscoped roster. -/
def UserLink.get_all_users (db : Db) : List UserLink :=
  db.user_links

/-- Embeds `DELETE FROM user_links WHERE discord_id = $1`. -/
def UserLink.delete_by_discord_id (db : Db) (discord_id : Int) : Db :=
  { db with user_links := db.user_links.filter (fun l => !(l.discord_id == discord_id)) }

/-- Embeds `INSERT INTO oauth_states (state_token, telegram_id) VALUES ($1, $2)
RETURNING *`.  Modelled from the spec for the expiry: `expires_at` is
filled by a schema default (migrations not in the source tree); it is
passed in here as the value that default produces. -/
def OAuthState.create (db : Db) (telegram_id : Int) (token : String) (expires_at : Int) :
    OAuthState × Db :=
  let st : OAuthState :=
    { id := db.next_id, state_token := token, telegram_id := telegram_id,
      expires_at := expires_at }
  (st, { db with oauth_states := db.oauth_states ++ [st], next_id := db.next_id + 1 })

/-- Embeds `DELETE FROM oauth_states WHERE state_token = $1 AND expires_at > NOW()
RETURNING *` (fetch_optional): every matching row is removed and the first
one is returned. -/
def OAuthState.get_and_delete (db : Db) (token : String) (now : Int) :
    Option OAuthState × Db :=
  (db.oauth_states.find? (fun s => s.state_token == token && decide (now < s.expires_at)),
   { db with oauth_states :=
      db.oauth_states.filter fun s =>
        !(s.state_token == token && decide (now < s.expires_at)) })

/-! ### Error taxonomy (src/api/error.rs) -/

/-- Embeds `ApiError` with its six variants; payloads of external error types are
reduced to what the core inspects. -/
inductive ApiError where
  | DiscordApi (message : String)
  | Http
  | ForbiddenRequest (message : String)
  | Database (e : DbError)
  | InternalError (message : String)
  | BadRequest (message : String)
  deriving Repr, DecidableEq

instance {ε α : Type} [DecidableEq ε] [DecidableEq α] : DecidableEq (Except ε α) :=
  fun a b =>
    match a, b with
    | Except.ok x, Except.ok y =>
        if h : x = y then Decidable.isTrue (by rw [h])
        else Decidable.isFalse (by intro hh; cases hh; exact h rfl)
    | Except.error x, Except.error y =>
        if h : x = y then Decidable.isTrue (by rw [h])
        else Decidable.isFalse (by intro hh; cases hh; exact h rfl)
    | Except.ok _, Except.error _ => Decidable.isFalse (by intro hh; cases hh)
    | Except.error _, Except.ok _ => Decidable.isFalse (by intro hh; cases hh)

/-- The HTTP status chosen by `ApiError::into_response`. -/
def ApiError.statusCode : ApiError → Nat
  | ApiError.DiscordApi _ => 502
  | ApiError.Http => 502
  | ApiError.Database _ => 500
  | ApiError.ForbiddenRequest _ => 400
  | ApiError.BadRequest _ => 400
  | ApiError.InternalError _ => 500

/-! ### Action channel messages (src/messages.rs as used by src/api/oauth.rs
and src/cron.rs) -/

/-- Messages sent on the telegram action channel, with the payloads the
OAuth callback and the verifier construct. -/
inductive TelegramAction where
  | InviteUser (telegram_id : Int)
  | RemoveUser (id : Int) (group_id : Int)
  deriving Repr, DecidableEq

/-! ### OAuth endpoints (src/api/oauth.rs) -/

structure OAuthStartQueryParams where
  telegram_id : Int
  deriving Repr, DecidableEq

structure OAuthCallbackQueryParams where
  code : String
  state : String
  deriving Repr, DecidableEq

structure DiscordUser where
  id : String
  username : String
  deriving Repr, DecidableEq

/-- Outcomes of the two Discord service calls the callback makes; the
service is behind the `DiscordService` trait, so the results are inputs to
the embedded handler. -/
structure DiscordOutcome where
  token_result : Except ApiError String
  user_result : Except ApiError DiscordUser

/-- The URL `get_oauth_url` builds, carrying the token as the state value. -/
def get_oauth_url (token : String) : String :=
  "https://discord.com/api/oauth2/authorize?state=" ++ token

/-- Embeds `discord_user.id.parse::<i64>()`: decimal digits with an optional
leading minus sign; anything else fails.  (The i64 range bound of the Rust
parse is elided: Discord snowflake ids fit in i64 and no claim depends on
overflow.) -/
def parse_i64 (s : String) : Option Int :=
  match s.data with
  | [] => none
  | '-' :: ds =>
    if ds.isEmpty then none
    else if ds.all (fun c => c.isDigit) then
      some (-((ds.foldl (fun n c => n * 10 + (c.toNat - '0'.toNat)) 0 : Nat) : Int))
    else none
  | ds =>
    if ds.all (fun c => c.isDigit) then
      some (((ds.foldl (fun n c => n * 10 + (c.toNat - '0'.toNat)) 0 : Nat) : Int))
    else none

/-- Embeds `oauth_start`: validate `telegram_id >= 1`, refuse when a link for the
telegram id exists, else persist a fresh pending state and redirect.
`token` is the generated UUID and `expires_at` the schema-default expiry. -/
def oauth_start (db : Db) (params : OAuthStartQueryParams) (token : String)
    (expires_at : Int) : Except ApiError String × Db :=
  if params.telegram_id < 1 then
    (Except.error (ApiError.BadRequest "invalid discord id for oauth flow"), db)
  else
    match UserLink.find_by_telegram_id db params.telegram_id with
    | some _ =>
        (Except.error (ApiError.ForbiddenRequest
          "Telegram account is already linked to a Discord account"), db)
    | none =>
        let created := OAuthState.create db params.telegram_id token expires_at
        (Except.ok (get_oauth_url token), created.2)

/-- Embeds `get_oauth_state`: consume the pending state, mapping a miss to
`ForbiddenRequest` (the InvalidOrExpiredState outcome). -/
def get_oauth_state (db : Db) (token : String) (now : Int) :
    Except ApiError OAuthState × Db :=
  match OAuthState.get_and_delete db token now with
  | (some oauth_state, db') => (Except.ok oauth_state, db')
  | (none, db') =>
      (Except.error (ApiError.ForbiddenRequest "Invalid or expired authorization request"), db')

/-- Embeds `can_link_accounts`: fail when the discord id is already linked. -/
def can_link_accounts (db : Db) (discord_id : Int) : Except ApiError Bool :=
  match UserLink.find_by_discord_id db discord_id with
  | some _ =>
      Except.error (ApiError.BadRequest
        "Discord account is already linked to a Telegram account")
  | none => Except.ok true

/-- Embeds `create_user_link`: re-check `can_link_accounts`, then insert, with the
sqlx error converted by `#[from]` into `ApiError::Database`. -/
def create_user_link (db : Db) (discord_id telegram_id : Int) :
    Except ApiError (UserLink × Db) :=
  match can_link_accounts db discord_id with
  | Except.error e => Except.error e
  | Except.ok _ =>
      match UserLink.create_link db discord_id telegram_id with
      | Except.error e => Except.error (ApiError.Database e)
      | Except.ok r => Except.ok r

/-- Embeds `oauth_callback`: the sequential state machine.  `send_ok` is whether
`telegram_sender.send` succeeds (the channel is open); a successful send
appends the action to the returned list, a failed one is only logged.  The
result carries the success page's username, the final store and the
actions enqueued. -/
def oauth_callback (db : Db) (params : OAuthCallbackQueryParams) (svc : DiscordOutcome)
    (send_ok : Bool) (now : Int) :
    Except ApiError String × Db × List TelegramAction :=
  match get_oauth_state db params.state now with
  | (Except.error e, db1) => (Except.error e, db1, [])
  | (Except.ok oauth_state, db1) =>
    let telegram_id := oauth_state.telegram_id
    match svc.token_result with
    | Except.error e => (Except.error e, db1, [])
    | Except.ok _access_token =>
      match svc.user_result with
      | Except.error e => (Except.error e, db1, [])
      | Except.ok discord_user =>
        match parse_i64 discord_user.id with
        | none => (Except.error (ApiError.DiscordApi "Invalid discord id"), db1, [])
        | some discord_id =>
          match can_link_accounts db1 discord_id with
          | Except.error e => (Except.error e, db1, [])
          | Except.ok _ =>
            match create_user_link db1 discord_id telegram_id with
            | Except.error e => (Except.error e, db1, [])
            | Except.ok (user_link, db2) =>
              let sent := if send_ok then [TelegramAction.InviteUser telegram_id] else []
              let db3 := UserLink.mark_added_to_group db2 user_link.id now
              (Except.ok discord_user.username, db3, sent)

/-! ### Scoped transaction helper (src/utils.rs) -/

/-- Possible failures of the transaction primitives themselves
(`begin`, `commit`, `rollback`); `none` means the call succeeds. -/
structure TxFaults (E : Type) where
  begin_err : Option E
  commit_err : Option E
  rollback_err : Option E

/-- Embeds `with_tx`: begin a transaction, run the closure on it, commit exactly
when it returns Ok and roll back when it returns Err, propagating the
closure's result or the failing primitive's error.  The closure is a state
transformer on the store: its returned state is the transaction's view,
which becomes visible only on commit. -/
def with_tx {σ T E : Type} (faults : TxFaults E) (conn : σ)
    (f : σ → Except E T × σ) : Except E T × σ :=
  match faults.begin_err with
  | some e => (Except.error e, conn)
  | none =>
    let run := f conn
    match run.1 with
    | Except.ok t =>
        match faults.commit_err with
        | some e => (Except.error e, conn)
        | none => (Except.ok t, run.2)
    | Except.error e =>
        match faults.rollback_err with
        | some e2 => (Except.error e2, conn)
        | none => (Except.error e, conn)

/-! ### Role verification cycle (src/cron.rs) -/

/-- The cycle statistics. -/
structure VerificationStats where
  users_checked : Nat
  users_removed : Nat
  users_failed : Nat
  deriving Repr, DecidableEq

def VerificationStats.zero : VerificationStats :=
  { users_checked := 0, users_removed := 0, users_failed := 0 }

/-- The environment a cycle runs against: the outcome of each external
call.  `member_roles` is the Discord guild-member fetch (`none` is a fetch
failure), `send_ok` whether `telegram_sender.send` succeeds for a given
telegram id, `delete_ok` whether the link DELETE succeeds, `guilds` the
`allowed_guilds` rows and `guild_role_ids` the `allowed_roles` lookup
keyed by the guild row's UUID. -/
structure CronEnv where
  member_roles : UserLink → Option (List Nat)
  send_ok : Int → Bool
  delete_ok : UserLink → Bool
  guilds : List AllowedGuild
  guild_role_ids : Nat → Except DbError (List Nat)

/-- Observable side effects of a cycle, in order: a message accepted by the
telegram channel, or a committed-to-transaction row deletion. -/
inductive CronEvent where
  | sent (a : TelegramAction)
  | deleted_link (discord_id : Int)
  deriving Repr, DecidableEq

/-- Working state of a cycle: the transaction's view of the store, the
statistics, and the trace of effects so far. -/
structure CycleState where
  db : Db
  stats : VerificationStats
  trace : List CronEvent

/-- Embeds `user_has_required_roles`: fetch the member, then test whether any of
their role ids is in the allowed list
(`user_roles.iter().any(|role_id| allowed_roles.contains(role_id))`). -/
def user_has_required_roles (env : CronEnv) (allowed_roles : List Nat) (u : UserLink) :
    Option Bool :=
  match env.member_roles u with
  | none => none
  | some user_roles => some (user_roles.any fun role_id => allowed_roles.contains role_id)

/-- The body of the per-user loop in `verify_users_in_guild`: count the
user as checked; on fetch failure or a failed send or DELETE count them as
failed; on a non-qualifying user send `RemoveUser` first and delete the
link only after a successful send. -/
def process_user (env : CronEnv) (guild_id : Int) (allowed_roles : List Nat)
    (u : UserLink) (s : CycleState) : CycleState :=
  let s1 : CycleState :=
    { s with stats := { s.stats with users_checked := s.stats.users_checked + 1 } }
  match user_has_required_roles env allowed_roles u with
  | some true => s1
  | some false =>
    if env.send_ok u.telegram_id then
      let s2 : CycleState :=
        { s1 with trace :=
            s1.trace ++ [CronEvent.sent (TelegramAction.RemoveUser u.telegram_id guild_id)] }
      if env.delete_ok u then
        { db := UserLink.delete_by_discord_id s2.db u.discord_id,
          stats := { s2.stats with users_removed := s2.stats.users_removed + 1 },
          trace := s2.trace ++ [CronEvent.deleted_link u.discord_id] }
      else
        { s2 with stats := { s2.stats with users_failed := s2.stats.users_failed + 1 } }
    else
      { s1 with stats := { s1.stats with users_failed := s1.stats.users_failed + 1 } }
  | none =>
      { s1 with stats := { s1.stats with users_failed := s1.stats.users_failed + 1 } }

/-- The events `process_user` appends to the trace; they depend only on
the environment and the user, never on the store. -/
def user_events (env : CronEnv) (guild_id : Int) (allowed_roles : List Nat)
    (u : UserLink) : List CronEvent :=
  match user_has_required_roles env allowed_roles u with
  | some true => []
  | some false =>
    if env.send_ok u.telegram_id then
      if env.delete_ok u then
        [CronEvent.sent (TelegramAction.RemoveUser u.telegram_id guild_id),
         CronEvent.deleted_link u.discord_id]
      else
        [CronEvent.sent (TelegramAction.RemoveUser u.telegram_id guild_id)]
    else []
  | none => []

/-- Embeds `verify_users_in_guild`: the sequential loop over the fetched users. -/
def verify_users_in_guild (env : CronEnv) (guild_id : Int) (allowed_roles : List Nat)
    (users : List UserLink) (s : CycleState) : CycleState :=
  users.foldl (fun acc u => process_user env guild_id allowed_roles u acc) s

/-- Embeds `verify_guild_user_roles`: fetch the guild's allowed role ids
(propagating a database failure), skip the guild when none are configured,
else fetch every linked user and run the per-user loop. -/
def verify_guild_user_roles (env : CronEnv) (guild : AllowedGuild) (s : CycleState) :
    Except DbError Unit × CycleState :=
  match env.guild_role_ids guild.id with
  | Except.error e => (Except.error e, s)
  | Except.ok allowed_roles =>
    if allowed_roles.isEmpty then (Except.ok (), s)
    else
      (Except.ok (),
       verify_users_in_guild env guild.guild_id allowed_roles (UserLink.get_all_users s.db) s)

/-- The guild loop of `verify_all_guilds_user_roles`: a guild-level error
aborts the remaining guilds, keeping the state reached so far. -/
def verify_guilds_go (env : CronEnv) : List AllowedGuild → CycleState →
    Except DbError Unit × CycleState
  | [], s => (Except.ok (), s)
  | g :: gs, s =>
    match verify_guild_user_roles env g s with
    | (Except.error e, s') => (Except.error e, s')
    | (Except.ok _, s') => verify_guilds_go env gs s'

/-- Embeds `verify_all_guilds_user_roles` over the configured guilds. -/
def verify_all_guilds_user_roles (env : CronEnv) (s : CycleState) :
    Except DbError Unit × CycleState :=
  verify_guilds_go env env.guilds s

/-- Embeds `run_role_verification_cycle`: run the guild verification inside
`with_tx` semantics — the store is committed only when the closure
succeeds and is rolled back on any error, while the channel sends (the
trace) happened outside the transaction and are kept either way. -/
def run_role_verification_cycle (faults : TxFaults DbError) (env : CronEnv) (db : Db) :
    Except DbError VerificationStats × Db × List CronEvent :=
  match faults.begin_err with
  | some e => (Except.error e, db, [])
  | none =>
    let run := verify_all_guilds_user_roles env
      { db := db, stats := VerificationStats.zero, trace := [] }
    match run.1 with
    | Except.ok _ =>
        match faults.commit_err with
        | some e => (Except.error e, db, run.2.trace)
        | none => (Except.ok run.2.stats, run.2.db, run.2.trace)
    | Except.error e =>
        match faults.rollback_err with
        | some e2 => (Except.error e2, db, run.2.trace)
        | none => (Except.error e, db, run.2.trace)

/-- No-fault transaction primitives: the normal case. -/
def noFaults : TxFaults DbError :=
  { begin_err := none, commit_err := none, rollback_err := none }

/-- The concatenated event segments of a user list, in processing order. -/
def cycle_events (env : CronEnv) (guild_id : Int) (allowed_roles : List Nat) :
    List UserLink → List CronEvent
  | [] => []
  | u :: us => user_events env guild_id allowed_roles u ++ cycle_events env guild_id allowed_roles us

/-- The crash-ordering invariant of a cycle's effect trace: a link deletion
occurs only strictly after a `RemoveUser` send for the same user (a user
of the roster at cycle start pairing that discord id with that telegram
id). -/
def EventOk (db0 : Db) (tr : List CronEvent) : Prop :=
  ∀ (k : Nat) (d : Int), tr[k]? = some (CronEvent.deleted_link d) →
    ∃ (j : Nat) (t g : Int), j < k ∧
      tr[j]? = some (CronEvent.sent (TelegramAction.RemoveUser t g)) ∧
      ∃ u, u ∈ db0.user_links ∧ u.discord_id = d ∧ u.telegram_id = t

/-! ### Concrete instances used by witnesses and counterexamples -/

def c4db : Db :=
  { user_links := [{ id := 0, discord_id := 123, telegram_id := 42, added_to_group_at := none }],
    oauth_states := [{ id := 1, state_token := "tok", telegram_id := 42, expires_at := 200 }],
    next_id := 2 }

def c5db : Db :=
  { user_links := [{ id := 0, discord_id := 999, telegram_id := 42, added_to_group_at := none }],
    oauth_states := [], next_id := 1 }

def c6db : Db :=
  { user_links := [],
    oauth_states := [{ id := 0, state_token := "tok", telegram_id := 42, expires_at := 100 }],
    next_id := 1 }

def c6svc : DiscordOutcome :=
  { token_result := Except.ok "access",
    user_result := Except.ok { id := "123", username := "alice" } }

def c2db : Db :=
  { user_links := [],
    oauth_states := [{ id := 0, state_token := "tok", telegram_id := 42, expires_at := 100 }],
    next_id := 1 }

def c2svc : DiscordOutcome :=
  { token_result := Except.ok "access",
    user_result := Except.ok { id := "123", username := "alice" } }

def c7db : Db :=
  { user_links := [{ id := 0, discord_id := 123, telegram_id := 42, added_to_group_at := none }],
    oauth_states := [], next_id := 1 }

/-- A linked user audited by the demonstration cycle. -/
def demo_user : UserLink :=
  { id := 0, discord_id := 123, telegram_id := 42, added_to_group_at := none }

def demo_cycle_db : Db :=
  { user_links := [demo_user], oauth_states := [], next_id := 1 }

/-- Two configured guilds; the first one has allowed role 10 and the user
holds no roles, the second one's allowed-role lookup hits a database
error. -/
def demo_cycle_env : CronEnv :=
  { member_roles := fun _ => some [],
    send_ok := fun _ => true,
    delete_ok := fun _ => true,
    guilds := [{ id := 1, guild_id := 100 }, { id := 2, guild_id := 200 }],
    guild_role_ids := fun i => if i == 1 then Except.ok [10] else Except.error DbError.connection }

def c3userA : UserLink :=
  { id := 0, discord_id := 1, telegram_id := 10, added_to_group_at := none }

def c3userB : UserLink :=
  { id := 1, discord_id := 2, telegram_id := 20, added_to_group_at := none }

/-- User A holds role 10, user B holds role 30. -/
def c3env : CronEnv :=
  { member_roles := fun u => if u.discord_id == 1 then some [10] else some [30],
    send_ok := fun _ => true,
    delete_ok := fun _ => true,
    guilds := [],
    guild_role_ids := fun _ => Except.ok [] }

def c3state : CycleState :=
  { db := { user_links := [c3userA, c3userB], oauth_states := [], next_id := 2 },
    stats := VerificationStats.zero, trace := [] }

/-- Every member fetch fails. -/
def c8env : CronEnv :=
  { member_roles := fun _ => none,
    send_ok := fun _ => true,
    delete_ok := fun _ => true,
    guilds := [],
    guild_role_ids := fun _ => Except.ok [] }

def c8state : CycleState :=
  { db := { user_links := [c3userA, c3userB], oauth_states := [], next_id := 2 },
    stats := VerificationStats.zero, trace := [] }

/-! ## Theorems -/

/-- C9: `with_tx` runs the closure inside a freshly begun transaction and
commits exactly when the closure returns Ok and rolls back exactly when it
returns Err, propagating the closure's result (or the commit/rollback
error), so no database effect of a failing closure is ever committed. -/
theorem c9_with_tx_commits_on_ok_rolls_back_on_err {σ T E : Type}
    (faults : TxFaults E) (conn : σ) (f : σ → Except E T × σ)
    (hb : faults.begin_err = none) :
    (∀ t s', f conn = (Except.ok t, s') →
        (faults.commit_err = none → with_tx faults conn f = (Except.ok t, s')) ∧
        (∀ ce, faults.commit_err = some ce →
            with_tx faults conn f = (Except.error ce, conn))) ∧
    (∀ e s', f conn = (Except.error e, s') →
        (with_tx faults conn f).2 = conn ∧
        (faults.rollback_err = none → (with_tx faults conn f).1 = Except.error e) ∧
        (∀ re, faults.rollback_err = some re →
            (with_tx faults conn f).1 = Except.error re)) := by
  constructor
  · intro t s' hf
    constructor
    · intro hc
      simp [with_tx, hb, hf, hc]
    · intro ce hc
      simp [with_tx, hb, hf, hc]
  · intro e s' hf
    refine ⟨?_, ?_, ?_⟩
    · cases hr : faults.rollback_err <;> simp [with_tx, hb, hf, hr]
    · intro hr
      simp [with_tx, hb, hf, hr]
    · intro re hr
      simp [with_tx, hb, hf, hr]

/-- Witness for C9 at a concrete closure: an Ok closure's state is
committed, an Err closure's state change is discarded. -/
theorem c9_witness :
    with_tx (E := Unit) ⟨none, none, none⟩ (0 : Nat)
        (fun n => (Except.ok (n + 1), n + 1)) = (Except.ok 1, 1) ∧
    (with_tx (T := Nat) ⟨none, none, none⟩ (0 : Nat)
        (fun n => (Except.error (), n + 1))).2 = 0 ∧
    (with_tx (T := Nat) ⟨none, none, none⟩ (0 : Nat)
        (fun n => (Except.error (), n + 1))).1 = Except.error () := by
  refine ⟨?_, ?_, ?_⟩
  · exact ((c9_with_tx_commits_on_ok_rolls_back_on_err ⟨none, none, none⟩ 0
      (fun n => (Except.ok (n + 1), n + 1)) rfl).1 1 1 rfl).1 rfl
  · exact ((c9_with_tx_commits_on_ok_rolls_back_on_err ⟨none, none, none⟩ 0
      (fun n => (Except.error (), n + 1)) rfl).2 () 1 rfl).1
  · exact ((c9_with_tx_commits_on_ok_rolls_back_on_err ⟨none, none, none⟩ 0
      (fun n => (Except.error (), n + 1)) rfl).2 () 1 rfl).2.1 rfl

/-- C7: for every valid telegram id that already has a link, `oauth_start`
fails with AlreadyLinked (`ForbiddenRequest`) and creates no pending
state; the pending-state insert happens only on the path where no
existing link was found. -/
theorem c7_oauth_start_already_linked (db : Db) (params : OAuthStartQueryParams)
    (token : String) (expires_at : Int) (hvalid : 1 ≤ params.telegram_id) :
    (∀ l, UserLink.find_by_telegram_id db params.telegram_id = some l →
        oauth_start db params token expires_at =
          (Except.error (ApiError.ForbiddenRequest
            "Telegram account is already linked to a Discord account"), db)) ∧
    ((oauth_start db params token expires_at).2.oauth_states ≠ db.oauth_states →
        UserLink.find_by_telegram_id db params.telegram_id = none) := by
  have hnl : ¬ params.telegram_id < 1 := not_lt.mpr hvalid
  constructor
  · intro l hl
    simp [oauth_start, hnl, hl]
  · intro hne
    cases hfind : UserLink.find_by_telegram_id db params.telegram_id with
    | none => rfl
    | some l =>
        exact absurd (by simp [oauth_start, hnl, hfind]) hne

/-- Witness for C7: telegram id 42 is linked in `c7db`, so starting the
flow again is refused and the store is unchanged. -/
theorem c7_witness :
    oauth_start c7db { telegram_id := 42 } "fresh-token" 500 =
      (Except.error (ApiError.ForbiddenRequest
        "Telegram account is already linked to a Discord account"), c7db) :=
  (c7_oauth_start_already_linked c7db { telegram_id := 42 } "fresh-token" 500
    (by decide)).1
    { id := 0, discord_id := 123, telegram_id := 42, added_to_group_at := none }
    (by decide)

/-- C4 counterexample: in `c4db` discord id 123 is linked to telegram id
42, the same telegram id that owns the pending state, yet
`can_link_accounts` still fails — the code never compares telegram ids, so
"if the discord_id is already linked to the same telegram_id ... the check
does not fail" is false. -/
theorem c4_counterexample :
    (UserLink.find_by_discord_id c4db 123).map (fun l => l.telegram_id) = some 42 ∧
    (c4db.oauth_states.map (fun s => s.telegram_id)) = [42] ∧
    can_link_accounts c4db 123 =
      Except.error (ApiError.BadRequest
        "Discord account is already linked to a Telegram account") := by
  refine ⟨by decide, by decide, rfl⟩

/-- C4 (amended): `can_link_accounts` fails — with `BadRequest`, a
400-class business error — exactly when the discord id is already linked
to any telegram id (the same one included); it never inspects which
telegram id owns the existing link. -/
theorem c4_can_link_fails_iff_discord_linked (db : Db) (discord_id : Int) :
    (can_link_accounts db discord_id =
        Except.error (ApiError.BadRequest
          "Discord account is already linked to a Telegram account") ↔
      ∃ l, l ∈ db.user_links ∧ l.discord_id = discord_id) ∧
    (can_link_accounts db discord_id = Except.ok true ↔
      UserLink.find_by_discord_id db discord_id = none) := by
  constructor
  · constructor
    · intro h
      cases hfind : UserLink.find_by_discord_id db discord_id with
      | none => simp [can_link_accounts, hfind] at h
      | some l =>
          refine ⟨l, List.mem_of_find?_eq_some hfind, ?_⟩
          have := List.find?_some hfind
          simpa using this
    · rintro ⟨l, hmem, hid⟩
      cases hfind : UserLink.find_by_discord_id db discord_id with
      | none =>
          have : ∀ x ∈ db.user_links, ¬ (x.discord_id == discord_id) = true := by
            simpa [UserLink.find_by_discord_id] using hfind
          exact absurd (by simpa using hid) (this l hmem)
      | some l' => simp [can_link_accounts, hfind]
  · constructor
    · intro h
      cases hfind : UserLink.find_by_discord_id db discord_id with
      | none => rfl
      | some l => simp [can_link_accounts, hfind] at h
    · intro hfind
      simp [can_link_accounts, hfind]

/-- Witness for C4's amended theorem at `c4db`. -/
theorem c4_witness :
    can_link_accounts c4db 123 =
      Except.error (ApiError.BadRequest
        "Discord account is already linked to a Telegram account") :=
  (c4_can_link_fails_iff_discord_linked c4db 123).1.mpr
    ⟨{ id := 0, discord_id := 123, telegram_id := 42, added_to_group_at := none },
     by decide, rfl⟩

/-- C5 counterexample: in `c5db` telegram id 42 is already linked (to
discord 999), so the pre-insert check for discord 123 passes but the
insert hits the unique constraint; `create_user_link` surfaces
`ApiError::Database` — a 500 internal error — not a 400-class Conflict. -/
theorem c5_counterexample :
    UserLink.find_by_discord_id c5db 123 = none ∧
    create_user_link c5db 123 42 =
      Except.error (ApiError.Database DbError.uniqueViolation) ∧
    (ApiError.Database DbError.uniqueViolation).statusCode = 500 := by
  refine ⟨by decide, rfl, rfl⟩

/-- C5 (amended): when the `UserLink` insert hits a unique-constraint
violation that the pre-insert check did not catch (a conflicting
telegram id, or a race on the discord id), the callback fails with the raw
`ApiError::Database` storage error, answered with HTTP 500 — not with the
400-class Conflict the spec intends. -/
theorem c5_unique_violation_surfaces_as_database_error (db : Db)
    (discord_id telegram_id : Int)
    (hcheck : UserLink.find_by_discord_id db discord_id = none)
    (hconflict : db.user_links.any
      (fun l => l.discord_id == discord_id || l.telegram_id == telegram_id) = true) :
    create_user_link db discord_id telegram_id =
      Except.error (ApiError.Database DbError.uniqueViolation) ∧
    (ApiError.Database DbError.uniqueViolation).statusCode = 500 := by
  refine ⟨?_, rfl⟩
  simp [create_user_link, can_link_accounts, hcheck, UserLink.create_link, hconflict]

/-- Witness for C5's amended theorem at `c5db`. -/
theorem c5_witness :
    create_user_link c5db 123 42 =
      Except.error (ApiError.Database DbError.uniqueViolation) :=
  (c5_unique_violation_surfaces_as_database_error c5db 123 42 (by decide) (by decide)).1

/-- C6 counterexample: a callback whose invite enqueue fails (`send_ok =
false`) still succeeds and — against the claim — still stamps
`added_to_group_at`: the code marks the link unconditionally after the
send `match`. -/
theorem c6_counterexample :
    (oauth_callback c6db { code := "c", state := "tok" } c6svc false 0).1 =
      Except.ok "alice" ∧
    (oauth_callback c6db { code := "c", state := "tok" } c6svc false 0).2.2 = [] ∧
    (oauth_callback c6db { code := "c", state := "tok" } c6svc false 0).2.1.user_links =
      [{ id := 1, discord_id := 123, telegram_id := 42, added_to_group_at := some 0 }] :=
  ⟨rfl, rfl, rfl⟩

/-- C6 (amended): a failure to enqueue the Invite action does not roll
back the created `UserLink` — the callback's result and final store do not
depend on the enqueue outcome at all — and `added_to_group_at` is stamped
regardless of whether the enqueue succeeded, not only after a successful
enqueue. -/
theorem c6_enqueue_failure_not_rolled_back (db : Db) (params : OAuthCallbackQueryParams)
    (svc : DiscordOutcome) (now : Int) :
    (oauth_callback db params svc true now).1 = (oauth_callback db params svc false now).1 ∧
    (oauth_callback db params svc true now).2.1 =
      (oauth_callback db params svc false now).2.1 ∧
    (oauth_callback db params svc false now).2.2 = [] ∧
    (∀ uname, (oauth_callback db params svc false now).1 = Except.ok uname →
        ∃ l, l ∈ (oauth_callback db params svc false now).2.1.user_links ∧
          l.added_to_group_at = some now) := by
  rcases hget : get_oauth_state db params.state now with ⟨r1, db1⟩
  cases r1 with
  | error e => simp [oauth_callback, hget]
  | ok oauth_state =>
    cases ht : svc.token_result with
    | error e => simp [oauth_callback, hget, ht]
    | ok access =>
      cases hu : svc.user_result with
      | error e => simp [oauth_callback, hget, ht, hu]
      | ok discord_user =>
        cases hp : parse_i64 discord_user.id with
        | none => simp [oauth_callback, hget, ht, hu, hp]
        | some discord_id =>
          cases hcl : can_link_accounts db1 discord_id with
          | error e => simp [oauth_callback, hget, ht, hu, hp, hcl]
          | ok b =>
            cases hcr : create_user_link db1 discord_id oauth_state.telegram_id with
            | error e => simp [oauth_callback, hget, ht, hu, hp, hcl, hcr]
            | ok res =>
              rcases res with ⟨link, db2⟩
              have hins : UserLink.create_link db1 discord_id oauth_state.telegram_id =
                  Except.ok (link, db2) := by
                have := hcr
                rw [create_user_link, hcl] at this
                cases hck : UserLink.create_link db1 discord_id oauth_state.telegram_id with
                | error e => rw [hck] at this; exact absurd this (by simp)
                | ok r => rw [hck] at this; simpa using this
              have hlink : link.id = db1.next_id ∧ link.added_to_group_at = none ∧
                  db2.user_links = db1.user_links ++ [link] := by
                rw [UserLink.create_link] at hins
                by_cases hc : db1.user_links.any
                    (fun l => l.discord_id == discord_id ||
                      l.telegram_id == oauth_state.telegram_id) = true
                · simp [hc] at hins
                · simp [hc] at hins
                  obtain ⟨h1, h2⟩ := hins
                  constructor
                  · rw [← h1]
                  constructor
                  · rw [← h1]
                  · rw [← h2, ← h1]
              refine ⟨?_, ?_, ?_, ?_⟩
              · simp [oauth_callback, hget, ht, hu, hp, hcl, hcr]
              · simp [oauth_callback, hget, ht, hu, hp, hcl, hcr]
              · simp [oauth_callback, hget, ht, hu, hp, hcl, hcr]
              · intro uname _
                refine ⟨{ link with added_to_group_at := some now }, ?_, rfl⟩
                have hmem : link ∈ db2.user_links := by
                  rw [hlink.2.2]
                  exact List.mem_append_right _ (List.mem_singleton.mpr rfl)
                have : (fun l : UserLink =>
                    if l.id == link.id then { l with added_to_group_at := some now }
                    else l) link ∈ (oauth_callback db params svc false now).2.1.user_links := by
                  simp [oauth_callback, hget, ht, hu, hp, hcl, hcr,
                    UserLink.mark_added_to_group]
                  exact ⟨link, hmem, by simp⟩
                simpa using this

/-- Witness for C6's amended theorem at the concrete callback of the
counterexample's scenario. -/
theorem c6_witness :
    ∃ l, l ∈ (oauth_callback c6db { code := "c", state := "tok" } c6svc false 0).2.1.user_links ∧
      l.added_to_group_at = some 0 :=
  (c6_enqueue_failure_not_rolled_back c6db { code := "c", state := "tok" } c6svc 0).2.2.2
    "alice" rfl

/-! ### Helper lemmas about the verification cycle -/

lemma process_user_trace (env : CronEnv) (gid : Int) (allowed : List Nat)
    (u : UserLink) (s : CycleState) :
    (process_user env gid allowed u s).trace = s.trace ++ user_events env gid allowed u := by
  cases h : user_has_required_roles env allowed u with
  | none => simp [process_user, user_events, h]
  | some b =>
    cases b with
    | true => simp [process_user, user_events, h]
    | false =>
      by_cases hs : env.send_ok u.telegram_id
      · by_cases hdel : env.delete_ok u
        · simp [process_user, user_events, h, hs, hdel]
        · simp [process_user, user_events, h, hs, hdel]
      · simp [process_user, user_events, h, hs]

lemma process_user_checked (env : CronEnv) (gid : Int) (allowed : List Nat)
    (u : UserLink) (s : CycleState) :
    (process_user env gid allowed u s).stats.users_checked = s.stats.users_checked + 1 := by
  cases h : user_has_required_roles env allowed u with
  | none => simp [process_user, h]
  | some b =>
    cases b with
    | true => simp [process_user, h]
    | false =>
      by_cases hs : env.send_ok u.telegram_id
      · by_cases hdel : env.delete_ok u
        · simp [process_user, h, hs, hdel]
        · simp [process_user, h, hs, hdel]
      · simp [process_user, h, hs]

lemma process_user_db (env : CronEnv) (gid : Int) (allowed : List Nat)
    (u : UserLink) (s : CycleState) :
    (process_user env gid allowed u s).db = s.db ∨
    ((process_user env gid allowed u s).db = UserLink.delete_by_discord_id s.db u.discord_id ∧
      user_has_required_roles env allowed u = some false) := by
  cases h : user_has_required_roles env allowed u with
  | none => left; simp [process_user, h]
  | some b =>
    cases b with
    | true => left; simp [process_user, h]
    | false =>
      by_cases hs : env.send_ok u.telegram_id
      · by_cases hdel : env.delete_ok u
        · right; exact ⟨by simp [process_user, h, hs, hdel], rfl⟩
        · left; simp [process_user, h, hs, hdel]
      · left; simp [process_user, h, hs]

lemma process_user_mem (env : CronEnv) (gid : Int) (allowed : List Nat)
    (v : UserLink) (s : CycleState) (x : UserLink)
    (hv : v.discord_id = x.discord_id → user_has_required_roles env allowed v ≠ some false) :
    x ∈ (process_user env gid allowed v s).db.user_links ↔ x ∈ s.db.user_links := by
  rcases process_user_db env gid allowed v s with h | ⟨h, hf⟩
  · rw [h]
  · rw [h]
    by_cases hdid : v.discord_id = x.discord_id
    · exact absurd hf (hv hdid)
    · have hne : (x.discord_id == v.discord_id) = false := by
        simp only [beq_eq_false_iff_ne]
        exact fun e => hdid e.symm
      simp [UserLink.delete_by_discord_id, List.mem_filter, hne]

lemma process_user_db_sub (env : CronEnv) (gid : Int) (allowed : List Nat)
    (v : UserLink) (s : CycleState) (x : UserLink)
    (hx : x ∈ (process_user env gid allowed v s).db.user_links) :
    x ∈ s.db.user_links := by
  rcases process_user_db env gid allowed v s with h | ⟨h, _⟩
  · rwa [h] at hx
  · rw [h] at hx
    exact (List.mem_filter.mp hx).1

lemma verify_users_cons (env : CronEnv) (gid : Int) (allowed : List Nat)
    (u : UserLink) (us : List UserLink) (s : CycleState) :
    verify_users_in_guild env gid allowed (u :: us) s =
      verify_users_in_guild env gid allowed us (process_user env gid allowed u s) := rfl

lemma verify_users_trace (env : CronEnv) (gid : Int) (allowed : List Nat)
    (users : List UserLink) (s : CycleState) :
    (verify_users_in_guild env gid allowed users s).trace =
      s.trace ++ cycle_events env gid allowed users := by
  induction users generalizing s with
  | nil => simp [verify_users_in_guild, cycle_events]
  | cons u us ih =>
      rw [verify_users_cons, ih, process_user_trace, cycle_events, List.append_assoc]

lemma verify_users_checked (env : CronEnv) (gid : Int) (allowed : List Nat)
    (users : List UserLink) (s : CycleState) :
    (verify_users_in_guild env gid allowed users s).stats.users_checked =
      s.stats.users_checked + users.length := by
  induction users generalizing s with
  | nil => simp [verify_users_in_guild]
  | cons u us ih =>
      rw [verify_users_cons, ih, process_user_checked]
      simp [List.length_cons]
      omega

lemma verify_users_mem (env : CronEnv) (gid : Int) (allowed : List Nat)
    (users : List UserLink) (s : CycleState) (x : UserLink)
    (h : ∀ v ∈ users, v.discord_id = x.discord_id →
        user_has_required_roles env allowed v ≠ some false) :
    x ∈ (verify_users_in_guild env gid allowed users s).db.user_links ↔
      x ∈ s.db.user_links := by
  induction users generalizing s with
  | nil => simp [verify_users_in_guild]
  | cons u us ih =>
      rw [verify_users_cons]
      exact (ih _ (fun v hv => h v (List.mem_cons_of_mem _ hv))).trans
        (process_user_mem env gid allowed u s x (h u (List.mem_cons_self _ _)))

lemma verify_users_db_sub (env : CronEnv) (gid : Int) (allowed : List Nat)
    (users : List UserLink) (s : CycleState) (x : UserLink)
    (hx : x ∈ (verify_users_in_guild env gid allowed users s).db.user_links) :
    x ∈ s.db.user_links := by
  induction users generalizing s with
  | nil => simpa [verify_users_in_guild] using hx
  | cons u us ih =>
      rw [verify_users_cons] at hx
      exact process_user_db_sub env gid allowed u s x (ih _ hx)

lemma cycle_events_append (env : CronEnv) (gid : Int) (allowed : List Nat)
    (l1 l2 : List UserLink) :
    cycle_events env gid allowed (l1 ++ l2) =
      cycle_events env gid allowed l1 ++ cycle_events env gid allowed l2 := by
  induction l1 with
  | nil => simp [cycle_events]
  | cons u us ih => rw [List.cons_append, cycle_events, cycle_events, ih, List.append_assoc]

lemma cycle_events_count_zero (env : CronEnv) (gid : Int) (allowed : List Nat)
    (target : CronEvent) (l : List UserLink)
    (h : ∀ v ∈ l, (user_events env gid allowed v).count target = 0) :
    (cycle_events env gid allowed l).count target = 0 := by
  induction l with
  | nil => simp [cycle_events]
  | cons u us ih =>
      rw [cycle_events, List.count_append, h u (List.mem_cons_self _ _),
        ih (fun v hv => h v (List.mem_cons_of_mem _ hv))]

lemma cycle_events_count_split (env : CronEnv) (gid : Int) (allowed : List Nat)
    (target : CronEvent) (users : List UserLink) (u : UserLink)
    (hu : u ∈ users) (hnodup : users.Nodup)
    (hother : ∀ v ∈ users, v ≠ u → (user_events env gid allowed v).count target = 0) :
    (cycle_events env gid allowed users).count target =
      (user_events env gid allowed u).count target := by
  obtain ⟨l1, l2, rfl⟩ := List.append_of_mem hu
  have hnd := List.nodup_append.mp hnodup
  have hu1 : u ∉ l1 := fun hmem => (hnd.2.2 hmem) (List.mem_cons_self _ _)
  have hu2 : u ∉ l2 := by
    have := hnd.2.1
    simp [List.nodup_cons] at this
    exact this.1
  rw [cycle_events_append, List.count_append, cycle_events, List.count_append]
  have z1 : (cycle_events env gid allowed l1).count target = 0 :=
    cycle_events_count_zero env gid allowed target l1 (fun v hv =>
      hother v (List.mem_append_left _ hv) (fun e => hu1 (e ▸ hv)))
  have z2 : (cycle_events env gid allowed l2).count target = 0 :=
    cycle_events_count_zero env gid allowed target l2 (fun v hv =>
      hother v (List.mem_append_right _ (List.mem_cons_of_mem _ hv)) (fun e => hu2 (e ▸ hv)))
  omega

lemma user_events_sent_count_self (env : CronEnv) (gid : Int) (u : UserLink)
    (allowed : List Nat)
    (hq : user_has_required_roles env allowed u = some false)
    (hs : env.send_ok u.telegram_id = true) :
    (user_events env gid allowed u).count
      (CronEvent.sent (TelegramAction.RemoveUser u.telegram_id gid)) = 1 := by
  by_cases hdel : env.delete_ok u
  · simp [user_events, hq, hs, hdel, List.count_cons]
  · simp [user_events, hq, hs, hdel, List.count_cons]

lemma user_events_sent_count_other (env : CronEnv) (gid : Int) (allowed : List Nat)
    (v : UserLink) (tid : Int) (h : v.telegram_id ≠ tid) :
    (user_events env gid allowed v).count
      (CronEvent.sent (TelegramAction.RemoveUser tid gid)) = 0 := by
  cases hq : user_has_required_roles env allowed v with
  | none => simp [user_events, hq]
  | some b =>
    cases b with
    | true => simp [user_events, hq]
    | false =>
      by_cases hs : env.send_ok v.telegram_id
      · by_cases hdel : env.delete_ok v
        · simp [user_events, hq, hs, hdel, List.count_cons, h]
        · simp [user_events, hq, hs, hdel, List.count_cons, h]
      · simp [user_events, hq, hs]

lemma user_events_sent_count_zero_self (env : CronEnv) (gid : Int) (allowed : List Nat)
    (u : UserLink) (hq : user_has_required_roles env allowed u ≠ some false) :
    (user_events env gid allowed u).count
      (CronEvent.sent (TelegramAction.RemoveUser u.telegram_id gid)) = 0 := by
  cases h : user_has_required_roles env allowed u with
  | none => simp [user_events, h]
  | some b =>
    cases b with
    | true => simp [user_events, h]
    | false => exact absurd h hq

lemma user_events_deleted_count_le_one (env : CronEnv) (gid : Int) (allowed : List Nat)
    (u : UserLink) :
    (user_events env gid allowed u).count (CronEvent.deleted_link u.discord_id) ≤ 1 := by
  cases hq : user_has_required_roles env allowed u with
  | none => simp [user_events, hq]
  | some b =>
    cases b with
    | true => simp [user_events, hq]
    | false =>
      by_cases hs : env.send_ok u.telegram_id
      · by_cases hdel : env.delete_ok u
        · simp [user_events, hq, hs, hdel, List.count_cons]
        · simp [user_events, hq, hs, hdel, List.count_cons]
      · simp [user_events, hq, hs]

lemma user_events_deleted_count_other (env : CronEnv) (gid : Int) (allowed : List Nat)
    (v : UserLink) (did : Int) (h : v.discord_id ≠ did) :
    (user_events env gid allowed v).count (CronEvent.deleted_link did) = 0 := by
  cases hq : user_has_required_roles env allowed v with
  | none => simp [user_events, hq]
  | some b =>
    cases b with
    | true => simp [user_events, hq]
    | false =>
      by_cases hs : env.send_ok v.telegram_id
      · by_cases hdel : env.delete_ok v
        · simp [user_events, hq, hs, hdel, List.count_cons, h]
        · simp [user_events, hq, hs, hdel, List.count_cons]
      · simp [user_events, hq, hs]

lemma user_events_deleted_count_zero_self (env : CronEnv) (gid : Int) (allowed : List Nat)
    (u : UserLink) (hq : user_has_required_roles env allowed u ≠ some false) :
    (user_events env gid allowed u).count (CronEvent.deleted_link u.discord_id) = 0 := by
  cases h : user_has_required_roles env allowed u with
  | none => simp [user_events, h]
  | some b =>
    cases b with
    | true => simp [user_events, h]
    | false => exact absurd h hq

lemma user_events_shape (env : CronEnv) (gid : Int) (allowed : List Nat) (u : UserLink) :
    user_events env gid allowed u = [] ∨
    user_events env gid allowed u =
      [CronEvent.sent (TelegramAction.RemoveUser u.telegram_id gid)] ∨
    user_events env gid allowed u =
      [CronEvent.sent (TelegramAction.RemoveUser u.telegram_id gid),
       CronEvent.deleted_link u.discord_id] := by
  cases hq : user_has_required_roles env allowed u with
  | none => left; simp [user_events, hq]
  | some b =>
    cases b with
    | true => left; simp [user_events, hq]
    | false =>
      by_cases hs : env.send_ok u.telegram_id
      · by_cases hdel : env.delete_ok u
        · right; right; simp [user_events, hq, hs, hdel]
        · right; left; simp [user_events, hq, hs, hdel]
      · left; simp [user_events, hq, hs]

lemma eventOk_nil (db0 : Db) : EventOk db0 [] := by
  intro k d hk
  simp at hk

lemma eventOk_append (db0 : Db) (tr seg : List CronEvent) (h : EventOk db0 tr)
    (hseg : seg = [] ∨ (∃ a, seg = [CronEvent.sent a]) ∨
      ∃ u g, u ∈ db0.user_links ∧
        seg = [CronEvent.sent (TelegramAction.RemoveUser u.telegram_id g),
               CronEvent.deleted_link u.discord_id]) :
    EventOk db0 (tr ++ seg) := by
  intro k d hk
  by_cases hlt : k < tr.length
  · rw [List.getElem?_append_left hlt] at hk
    obtain ⟨j, t, g, hj, hjget, hu⟩ := h k d hk
    exact ⟨j, t, g, hj,
      by rw [List.getElem?_append_left (lt_trans hj hlt)]; exact hjget, hu⟩
  · have hge : tr.length ≤ k := le_of_not_lt hlt
    rw [List.getElem?_append_right hge] at hk
    rcases hseg with h0 | ⟨a, h1⟩ | ⟨u, g, hu, h2⟩
    · rw [h0] at hk; simp at hk
    · rw [h1] at hk
      match hkk : k - tr.length, hk with
      | 0, hk => simp [hkk] at hk
      | n + 1, hk => simp at hk
    · rw [h2] at hk
      match hkk : k - tr.length with
      | 0 => rw [hkk] at hk; simp at hk
      | 1 =>
          rw [hkk] at hk
          simp at hk
          refine ⟨tr.length, u.telegram_id, g, by omega, ?_, u, hu, hk, rfl⟩
          rw [List.getElem?_append_right (le_refl _)]
          simp [h2]
      | n + 2 => rw [hkk] at hk; simp at hk

lemma verify_users_eventOk (env : CronEnv) (gid : Int) (allowed : List Nat)
    (users : List UserLink) (s : CycleState) (db0 : Db)
    (hs : EventOk db0 s.trace) (husers : ∀ v ∈ users, v ∈ db0.user_links) :
    EventOk db0 (verify_users_in_guild env gid allowed users s).trace := by
  induction users generalizing s with
  | nil => simpa [verify_users_in_guild] using hs
  | cons u us ih =>
      rw [verify_users_cons]
      refine ih _ ?_ (fun v hv => husers v (List.mem_cons_of_mem _ hv))
      rw [process_user_trace]
      refine eventOk_append db0 _ _ hs ?_
      rcases user_events_shape env gid allowed u with h | h | h
      · exact Or.inl h
      · exact Or.inr (Or.inl ⟨_, h⟩)
      · exact Or.inr (Or.inr ⟨u, gid, husers u (List.mem_cons_self _ _), h⟩)

lemma verify_guilds_inv (env : CronEnv) (db0 : Db) (gs : List AllowedGuild)
    (s : CycleState) (hs : EventOk db0 s.trace)
    (hsub : ∀ x ∈ s.db.user_links, x ∈ db0.user_links) :
    EventOk db0 (verify_guilds_go env gs s).2.trace ∧
    ∀ x ∈ (verify_guilds_go env gs s).2.db.user_links, x ∈ db0.user_links := by
  induction gs generalizing s with
  | nil => exact ⟨hs, hsub⟩
  | cons g gs ih =>
      rw [verify_guilds_go]
      cases hr : env.guild_role_ids g.id with
      | error e => simpa [verify_guild_user_roles, hr] using And.intro hs hsub
      | ok allowed =>
          by_cases hempty : allowed.isEmpty
          · simpa [verify_guild_user_roles, hr, hempty] using ih s hs hsub
          · have hstep :
                verify_guild_user_roles env g s =
                  (Except.ok (), verify_users_in_guild env g.guild_id allowed
                    (UserLink.get_all_users s.db) s) := by
              simp [verify_guild_user_roles, hr, hempty]
            rw [hstep]
            refine ih _ ?_ ?_
            · exact verify_users_eventOk env g.guild_id allowed _ s db0 hs
                (fun v hv => hsub v hv)
            · intro x hx
              exact hsub x (verify_users_db_sub env g.guild_id allowed _ s x hx)

lemma run_cycle_trace (faults : TxFaults DbError) (env : CronEnv) (db0 : Db) :
    (run_role_verification_cycle faults env db0).2.2 = [] ∨
    (run_role_verification_cycle faults env db0).2.2 =
      (verify_all_guilds_user_roles env
        { db := db0, stats := VerificationStats.zero, trace := [] }).2.trace := by
  cases hb : faults.begin_err with
  | some e => left; simp [run_role_verification_cycle, hb]
  | none =>
    right
    rcases hr : verify_all_guilds_user_roles env
        { db := db0, stats := VerificationStats.zero, trace := [] } with ⟨r, s⟩
    cases r with
    | ok t =>
        cases hc : faults.commit_err with
        | some e => simp [run_role_verification_cycle, hb, hr, hc]
        | none => simp [run_role_verification_cycle, hb, hr, hc]
    | error e =>
        cases hrb : faults.rollback_err with
        | some e2 => simp [run_role_verification_cycle, hb, hr, hrb]
        | none => simp [run_role_verification_cycle, hb, hr, hrb]

/-- C1: in every verification cycle, a `UserLink` deletion is preceded —
strictly earlier in the effect trace — by the accepted `RemoveUser` send
for the same audited user, and when the send fails the user is only
counted as failed: the cycle state is unchanged except for the
`users_checked`/`users_failed` counters, so the link survives for the
next cycle and a deleted-without-enqueue state is unreachable. -/
theorem c1_remove_enqueued_before_delete (faults : TxFaults DbError) (env : CronEnv)
    (db0 : Db) :
    EventOk db0 (run_role_verification_cycle faults env db0).2.2 ∧
    (∀ (gid : Int) (allowed : List Nat) (u : UserLink) (s : CycleState),
        user_has_required_roles env allowed u = some false →
        env.send_ok u.telegram_id = false →
        process_user env gid allowed u s =
          { s with stats := { s.stats with
              users_checked := s.stats.users_checked + 1,
              users_failed := s.stats.users_failed + 1 } }) := by
  constructor
  · rcases run_cycle_trace faults env db0 with h | h
    · rw [h]; exact eventOk_nil db0
    · rw [h]
      exact (verify_guilds_inv env db0 env.guilds _ (eventOk_nil db0) (fun x hx => hx)).1
  · intro gid allowed u s hq hs
    simp [process_user, hq, hs]

/-- Witness for C1 at the demonstration cycle, whose trace is
`[sent (RemoveUser 42 100), deleted_link 123]`: the deletion at index 1
has a send strictly before it, for the roster user pairing 123 with 42. -/
theorem c1_witness :
    ∃ (j : Nat) (t g : Int), j < 1 ∧
      (run_role_verification_cycle noFaults demo_cycle_env demo_cycle_db).2.2[j]? =
        some (CronEvent.sent (TelegramAction.RemoveUser t g)) ∧
      ∃ u, u ∈ demo_cycle_db.user_links ∧ u.discord_id = 123 ∧ u.telegram_id = t :=
  (c1_remove_enqueued_before_delete noFaults demo_cycle_env demo_cycle_db).1 1 123 (by decide)

/-- C3: a fetched user qualifies exactly when their role ids intersect the
guild's allowed role ids; a qualifying user is never removed (no send, no
deletion, link kept), and a non-qualifying user whose send is accepted
gets exactly one `RemoveUser` enqueued and at most one link deletion in
the cycle's loop. -/
theorem c3_qualification_and_removal (env : CronEnv) (gid : Int) (allowed : List Nat)
    (users : List UserLink) (s0 : CycleState)
    (hd : (users.map (fun u => u.discord_id)).Nodup)
    (ht : (users.map (fun u => u.telegram_id)).Nodup)
    (h0 : s0.trace = []) :
    (∀ u rs, env.member_roles u = some rs →
        (user_has_required_roles env allowed u = some true ↔ ∃ r, r ∈ rs ∧ r ∈ allowed)) ∧
    (∀ u ∈ users, user_has_required_roles env allowed u = some true →
        (verify_users_in_guild env gid allowed users s0).trace.count
            (CronEvent.sent (TelegramAction.RemoveUser u.telegram_id gid)) = 0 ∧
        (verify_users_in_guild env gid allowed users s0).trace.count
            (CronEvent.deleted_link u.discord_id) = 0 ∧
        (u ∈ (verify_users_in_guild env gid allowed users s0).db.user_links ↔
            u ∈ s0.db.user_links)) ∧
    (∀ u ∈ users, user_has_required_roles env allowed u = some false →
        env.send_ok u.telegram_id = true →
        (verify_users_in_guild env gid allowed users s0).trace.count
            (CronEvent.sent (TelegramAction.RemoveUser u.telegram_id gid)) = 1 ∧
        (verify_users_in_guild env gid allowed users s0).trace.count
            (CronEvent.deleted_link u.discord_id) ≤ 1) := by
  have inj_d := List.inj_on_of_nodup_map hd
  have inj_t := List.inj_on_of_nodup_map ht
  have husers : users.Nodup := List.Nodup.of_map _ hd
  refine ⟨?_, ?_, ?_⟩
  · intro u rs h
    simp [user_has_required_roles, h, List.any_eq_true]
  · intro u hu hq
    rw [verify_users_trace, h0, List.nil_append]
    refine ⟨?_, ?_, ?_⟩
    · refine cycle_events_count_zero env gid allowed _ users (fun v hv => ?_)
      by_cases hvu : v = u
      · subst hvu
        exact user_events_sent_count_zero_self env gid allowed v (by rw [hq]; simp)
      · exact user_events_sent_count_other env gid allowed v u.telegram_id
          (fun e => hvu (inj_t hv hu e))
    · refine cycle_events_count_zero env gid allowed _ users (fun v hv => ?_)
      by_cases hvu : v = u
      · subst hvu
        exact user_events_deleted_count_zero_self env gid allowed v (by rw [hq]; simp)
      · exact user_events_deleted_count_other env gid allowed v u.discord_id
          (fun e => hvu (inj_d hv hu e))
    · refine verify_users_mem env gid allowed users s0 u (fun v hv hvd => ?_)
      have hvu : v = u := inj_d hv hu hvd
      rw [hvu, hq]
      simp
  · intro u hu hq hsend
    rw [verify_users_trace, h0, List.nil_append]
    constructor
    · rw [cycle_events_count_split env gid allowed _ users u hu husers
        (fun v hv hne => user_events_sent_count_other env gid allowed v u.telegram_id
          (fun e => hne (inj_t hv hu e)))]
      exact user_events_sent_count_self env gid u allowed hq hsend
    · rw [cycle_events_count_split env gid allowed _ users u hu husers
        (fun v hv hne => user_events_deleted_count_other env gid allowed v u.discord_id
          (fun e => hne (inj_d hv hu e)))]
      exact user_events_deleted_count_le_one env gid allowed u

/-- Witness for C3 at the concrete loop: user A (role 10 ∈ allowed) keeps
the link with nothing sent, user B (role 30 ∉ allowed) gets exactly one
`RemoveUser` and at most one deletion. -/
theorem c3_witness :
    ((verify_users_in_guild c3env 100 [10] [c3userA, c3userB] c3state).trace.count
        (CronEvent.sent (TelegramAction.RemoveUser 10 100)) = 0 ∧
      (c3userA ∈ (verify_users_in_guild c3env 100 [10] [c3userA, c3userB] c3state).db.user_links ↔
        c3userA ∈ c3state.db.user_links)) ∧
    (verify_users_in_guild c3env 100 [10] [c3userA, c3userB] c3state).trace.count
        (CronEvent.sent (TelegramAction.RemoveUser 20 100)) = 1 := by
  have h := c3_qualification_and_removal c3env 100 [10] [c3userA, c3userB] c3state
    (by decide) (by decide) rfl
  have hA := h.2.1 c3userA (by decide) (by decide)
  have hB := h.2.2 c3userB (by decide) (by decide) rfl
  exact ⟨⟨hA.1, hA.2.2⟩, hB.1⟩

/-- C8: when one user's member fetch fails, the step only bumps
`users_checked` and `users_failed` (the store and the trace are
untouched), that user's link is kept and nothing is sent or deleted for
them, and the loop still processes every user of the cycle. -/
theorem c8_fetch_failure_skips_user (env : CronEnv) (gid : Int) (allowed : List Nat)
    (users : List UserLink) (s0 : CycleState) (u : UserLink)
    (hu : u ∈ users)
    (hd : (users.map (fun v => v.discord_id)).Nodup)
    (ht : (users.map (fun v => v.telegram_id)).Nodup)
    (h0 : s0.trace = [])
    (hfetch : env.member_roles u = none) :
    (∀ s, process_user env gid allowed u s =
        { s with stats := { s.stats with
            users_checked := s.stats.users_checked + 1,
            users_failed := s.stats.users_failed + 1 } }) ∧
    user_events env gid allowed u = [] ∧
    (verify_users_in_guild env gid allowed users s0).trace.count
        (CronEvent.sent (TelegramAction.RemoveUser u.telegram_id gid)) = 0 ∧
    (verify_users_in_guild env gid allowed users s0).trace.count
        (CronEvent.deleted_link u.discord_id) = 0 ∧
    (u ∈ (verify_users_in_guild env gid allowed users s0).db.user_links ↔
        u ∈ s0.db.user_links) ∧
    (verify_users_in_guild env gid allowed users s0).stats.users_checked =
      s0.stats.users_checked + users.length := by
  have inj_d := List.inj_on_of_nodup_map hd
  have inj_t := List.inj_on_of_nodup_map ht
  have hnone : user_has_required_roles env allowed u = none := by
    simp [user_has_required_roles, hfetch]
  refine ⟨?_, ?_, ?_, ?_, ?_, ?_⟩
  · intro s
    simp [process_user, hnone]
  · simp [user_events, hnone]
  · rw [verify_users_trace, h0, List.nil_append]
    refine cycle_events_count_zero env gid allowed _ users (fun v hv => ?_)
    by_cases hvu : v = u
    · subst hvu
      exact user_events_sent_count_zero_self env gid allowed v (by rw [hnone]; simp)
    · exact user_events_sent_count_other env gid allowed v u.telegram_id
        (fun e => hvu (inj_t hv hu e))
  · rw [verify_users_trace, h0, List.nil_append]
    refine cycle_events_count_zero env gid allowed _ users (fun v hv => ?_)
    by_cases hvu : v = u
    · subst hvu
      exact user_events_deleted_count_zero_self env gid allowed v (by rw [hnone]; simp)
    · exact user_events_deleted_count_other env gid allowed v u.discord_id
        (fun e => hvu (inj_d hv hu e))
  · refine verify_users_mem env gid allowed users s0 u (fun v hv hvd => ?_)
    have hvu : v = u := inj_d hv hu hvd
    rw [hvu, hnone]
    simp
  · exact verify_users_checked env gid allowed users s0

/-- Witness for C8: with every member fetch failing, both users are still
processed (checked count 2), nothing is deleted and both links survive. -/
theorem c8_witness :
    (verify_users_in_guild c8env 100 [10] [c3userA, c3userB] c8state).stats.users_checked =
      0 + 2 ∧
    (verify_users_in_guild c8env 100 [10] [c3userA, c3userB] c8state).trace.count
        (CronEvent.deleted_link 1) = 0 ∧
    (c3userA ∈ (verify_users_in_guild c8env 100 [10] [c3userA, c3userB] c8state).db.user_links ↔
      c3userA ∈ c8state.db.user_links) := by
  have h := c8_fetch_failure_skips_user c8env 100 [10] [c3userA, c3userB] c8state c3userA
    (by decide) (by decide) (by decide) rfl rfl
  exact ⟨h.2.2.2.2.2, h.2.2.2.1, h.2.2.2.2.1⟩

/-- C10: whenever the verification routine errors partway through a cycle,
`with_tx` rolls the store back to its pre-cycle contents, while the
actions already accepted by the telegram channel are kept — demonstrated
concretely: the second guild's allowed-role fetch fails after the first
guild already sent `RemoveUser` and deleted the link, and the final store
again contains the removed user's link. -/
theorem c10_rollback_keeps_sent_actions :
    (∀ (faults : TxFaults DbError) (env : CronEnv) (db : Db) (e : DbError),
        (run_role_verification_cycle faults env db).1 = Except.error e →
        (run_role_verification_cycle faults env db).2.1 = db) ∧
    run_role_verification_cycle noFaults demo_cycle_env demo_cycle_db =
      (Except.error DbError.connection, demo_cycle_db,
       [CronEvent.sent (TelegramAction.RemoveUser 42 100), CronEvent.deleted_link 123]) ∧
    demo_user ∈ demo_cycle_db.user_links := by
  refine ⟨?_, by decide, by decide⟩
  intro faults env db e herr
  cases hb : faults.begin_err with
  | some e2 => simp [run_role_verification_cycle, hb]
  | none =>
    rcases hr : verify_all_guilds_user_roles env
        { db := db, stats := VerificationStats.zero, trace := [] } with ⟨r, s⟩
    cases r with
    | ok t =>
        cases hc : faults.commit_err with
        | some e2 => simp [run_role_verification_cycle, hb, hr, hc]
        | none =>
            rw [run_role_verification_cycle] at herr
            simp [hb, hr, hc] at herr
    | error e2 =>
        cases hrb : faults.rollback_err with
        | some e3 => simp [run_role_verification_cycle, hb, hr, hrb]
        | none => simp [run_role_verification_cycle, hb, hr, hrb]

/-- Witness for C10's universal part at the demonstration cycle: the
failing cycle leaves the store exactly as it started. -/
theorem c10_witness :
    (run_role_verification_cycle noFaults demo_cycle_env demo_cycle_db).2.1 =
      demo_cycle_db :=
  c10_rollback_keeps_sent_actions.1 noFaults demo_cycle_env demo_cycle_db
    DbError.connection (by decide)

lemma oauth_callback_state_miss (db : Db) (params : OAuthCallbackQueryParams)
    (svc : DiscordOutcome) (send_ok : Bool) (now : Int)
    (h : db.oauth_states.find?
      (fun s => s.state_token == params.state && decide (now < s.expires_at)) = none) :
    (oauth_callback db params svc send_ok now).1 =
      Except.error (ApiError.ForbiddenRequest "Invalid or expired authorization request") ∧
    (oauth_callback db params svc send_ok now).2.1.user_links = db.user_links ∧
    (oauth_callback db params svc send_ok now).2.2 = [] := by
  refine ⟨?_, ?_, ?_⟩ <;>
    simp [oauth_callback, get_oauth_state, OAuthState.get_and_delete, h]

/-- C2: consuming the pending state is an atomic fetch-and-delete —
`get_and_delete` returns the row and removes it exactly when a row with
the token exists with `expires_at` still in the future (and removes
nothing otherwise); consequently a second callback with an
already-consumed token, and any callback with an expired token, fail with
InvalidOrExpiredState (`ForbiddenRequest`) and create no link and enqueue
nothing. -/
theorem c2_state_token_single_use (db : Db) (token : String) (now : Int)
    (hnd : (db.oauth_states.map (fun s => s.state_token)).Nodup) :
    ((OAuthState.get_and_delete db token now).1.isSome ↔
      ∃ st, st ∈ db.oauth_states ∧ st.state_token = token ∧ now < st.expires_at) ∧
    (∀ st, (OAuthState.get_and_delete db token now).1 = some st →
      st ∈ db.oauth_states ∧ st.state_token = token ∧ now < st.expires_at ∧
      st ∉ (OAuthState.get_and_delete db token now).2.oauth_states) ∧
    ((OAuthState.get_and_delete db token now).1 = none →
      (OAuthState.get_and_delete db token now).2 = db) ∧
    (∀ st db1, OAuthState.get_and_delete db token now = (some st, db1) →
      ∀ (params : OAuthCallbackQueryParams) (svc : DiscordOutcome)
        (send_ok : Bool) (now2 : Int), params.state = token →
        (oauth_callback db1 params svc send_ok now2).1 =
          Except.error (ApiError.ForbiddenRequest "Invalid or expired authorization request") ∧
        (oauth_callback db1 params svc send_ok now2).2.1.user_links = db1.user_links ∧
        (oauth_callback db1 params svc send_ok now2).2.2 = []) ∧
    (∀ st, st ∈ db.oauth_states → st.state_token = token → st.expires_at ≤ now →
      ∀ (params : OAuthCallbackQueryParams) (svc : DiscordOutcome) (send_ok : Bool),
        params.state = token →
        (oauth_callback db params svc send_ok now).1 =
          Except.error (ApiError.ForbiddenRequest "Invalid or expired authorization request") ∧
        (oauth_callback db params svc send_ok now).2.1.user_links = db.user_links ∧
        (oauth_callback db params svc send_ok now).2.2 = []) := by
  have inj := List.inj_on_of_nodup_map hnd
  refine ⟨?_, ?_, ?_, ?_, ?_⟩
  · simp [OAuthState.get_and_delete, List.find?_isSome]
  · intro st h
    simp only [OAuthState.get_and_delete] at h
    have hp := List.find?_some h
    simp only [Bool.and_eq_true, beq_iff_eq, decide_eq_true_eq] at hp
    refine ⟨List.mem_of_find?_eq_some h, hp.1, hp.2, ?_⟩
    intro hmem
    simp only [OAuthState.get_and_delete] at hmem
    have := (List.mem_filter.mp hmem).2
    simp [hp.1, hp.2] at this
  · intro h
    simp only [OAuthState.get_and_delete] at h ⊢
    have hall := List.find?_eq_none.mp h
    have : db.oauth_states.filter
        (fun s => !(s.state_token == token && decide (now < s.expires_at))) =
        db.oauth_states := by
      refine List.filter_eq_self.mpr (fun a ha => ?_)
      have hthis := hall a ha
      simp only [Bool.and_eq_true, beq_iff_eq, decide_eq_true_eq, not_and, not_lt] at hthis
      by_cases he : a.state_token = token
      · have hnl : ¬ (now < a.expires_at) := not_lt.mpr (hthis he)
        simp [he, hnl]
      · simp [he]
    rw [this]
  · intro st db1 hpair params svc send_ok now2 hps
    have h1 : (OAuthState.get_and_delete db token now).1 = some st := by rw [hpair]
    have h2 : (OAuthState.get_and_delete db token now).2 = db1 := by rw [hpair]
    simp only [OAuthState.get_and_delete] at h1 h2
    have hpst := List.find?_some h1
    simp only [Bool.and_eq_true, beq_iff_eq, decide_eq_true_eq] at hpst
    have hstmem := List.mem_of_find?_eq_some h1
    have hnone : db1.oauth_states.find?
        (fun s => s.state_token == params.state && decide (now2 < s.expires_at)) = none := by
      refine List.find?_eq_none.mpr (fun x hx => ?_)
      intro hpx
      simp only [Bool.and_eq_true, beq_iff_eq, decide_eq_true_eq] at hpx
      have hx' : x ∈ db.oauth_states ∧ _ := List.mem_filter.mp (by rw [← h2] at hx; exact hx)
      have hxst : x = st := inj hx'.1 hstmem (by rw [hpx.1, hps, hpst.1])
      have := hx'.2
      rw [hxst] at this
      simp [hpst.1, hpst.2] at this
    exact oauth_callback_state_miss db1 params svc send_ok now2 hnone
  · intro st hmem htok hexp params svc send_ok hps
    have hnone : db.oauth_states.find?
        (fun s => s.state_token == params.state && decide (now < s.expires_at)) = none := by
      refine List.find?_eq_none.mpr (fun x hx => ?_)
      intro hpx
      simp only [Bool.and_eq_true, beq_iff_eq, decide_eq_true_eq] at hpx
      have hxst : x = st := inj hx hmem (by rw [hpx.1, hps, htok])
      rw [hxst] at hpx
      omega
    exact oauth_callback_state_miss db params svc send_ok now hnone

/-- Witness for C2 at the concrete store holding one live state for token
"tok": the state is returned, and the callback replayed on the consumed
store fails with the ForbiddenRequest error, leaving no link and no
action. -/
theorem c2_witness :
    (OAuthState.get_and_delete c2db "tok" 0).1.isSome ∧
    (oauth_callback { c2db with oauth_states := [] }
        { code := "c", state := "tok" } c2svc true 5).1 =
      Except.error (ApiError.ForbiddenRequest "Invalid or expired authorization request") := by
  have h := c2_state_token_single_use c2db "tok" 0 (by decide)
  constructor
  · exact h.1.mpr ⟨{ id := 0, state_token := "tok", telegram_id := 42, expires_at := 100 },
      by decide, rfl, by decide⟩
  · exact (h.2.2.2.1 { id := 0, state_token := "tok", telegram_id := 42, expires_at := 100 }
      { c2db with oauth_states := [] } (by decide)
      { code := "c", state := "tok" } c2svc true 5 rfl).1

end Felbot
